import Mathlib

/-!
Verification of the litserve request-routing core (src/litserve/server.py)
against its natural-language specification.

The embedding models payloads as JSON-like values, the Request Table as an
association list with dict semantics (at most one binding per key, pop is an
atomic lookup-and-remove), the Channel Pool as a list of channel-pair
identifiers, and each request-handler or worker-loop body as a pure state
transition.  Real-time aspects (whether a reply arrives within the timeout,
whether a worker consumed an entry before cleanup ran) are oracle inputs.
-/

namespace LitServe

/-- JSON-like values used as request and response payloads. -/
inductive Val where
  | num (q : ℚ)
  | str (s : String)
  | vlist (l : List Val)
  | obj (fields : List (String × Val))

/-- Python exceptions that the embedded code can raise. -/
inductive PyErr where
  | keyError (key : String)
  | typeError (msg : String)
  | validationError (msg : String)
  deriving DecidableEq, Repr

/-- Dictionary lookup on an object value; none when the key is absent or the
value is not an object. -/
def Val.getKey : Val → String → Option Val
  | .obj fields, key => (fields.find? (fun kv => kv.1 == key)).map Prod.snd
  | _, _ => none

/-- Python subscript v[key]: KeyError when the key is missing from an object,
TypeError when the value is not subscriptable by a string key. -/
def Val.subscript : Val → String → Except PyErr Val
  | .obj fields, key =>
      match (fields.find? (fun kv => kv.1 == key)).map Prod.snd with
      | some v => .ok v
      | none => .error (.keyError key)
  | _, _ => .error (.typeError "value is not subscriptable")

/-- Modelled from the spec: litserve.schemas.openai.ChatCompletionRequest is
not under src/; per the spec the chat endpoint accepts a request carrying
model, messages, n, stream, stop, frequency_penalty, presence_penalty,
max_tokens and top_p. -/
structure ChatCompletionRequest where
  model : Option String := none
  messages : Val := .vlist []
  n : Nat := 1
  stream : Bool := false
  stop : Option Val := none
  frequency_penalty : ℚ := 0
  presence_penalty : ℚ := 0
  max_tokens : Option Nat := none
  top_p : ℚ := 1

/-- A payload stored in the Request Table: the /predict path stores the raw
request data, the chat path stores the whole chat request object. -/
inductive Payload where
  | val (v : Val)
  | chatRequest (r : ChatCompletionRequest)

/-- Request identifiers (uuid4 in the source) are opaque tokens. -/
abbrev UID := Nat

/-- A duplex channel pair is identified by an opaque id; the sender and
receiver halves of one pair share its id. -/
abbrev PipeId := Nat

/-- One Request Table entry: the raw payload and the reply-channel sender. -/
abbrev Entry := Payload × PipeId

/-- The Request Table (request_buffer): a shared dict from uid to entry,
embedded as an association list with at most one binding per key. -/
abbrev Table := List (UID × Entry)

/-- Dictionary lookup in the Request Table. -/
def lookupEntry (t : Table) (uid : UID) : Option Entry :=
  (t.find? (fun kv => kv.1 == uid)).map Prod.snd

/-- Embedding of request_buffer.pop(uid): atomically look up and remove the
binding for uid, returning the entry when present. -/
def tablePop (t : Table) (uid : UID) : Option Entry × Table :=
  (lookupEntry t uid, t.filter (fun kv => kv.1 != uid))

/-- Embedding of request_buffer[uid] = entry: dict insertion overwrites any
existing binding for the key. -/
def tableInsert (t : Table) (uid : UID) (e : Entry) : Table :=
  (uid, e) :: t.filter (fun kv => kv.1 != uid)

/-- Embedding of cleanup (server.py lines 103-105): pop the uid from the
request buffer, suppressing the KeyError raised when it is absent. -/
def cleanup (t : Table) (uid : UID) : Table :=
  (tablePop t uid).2

theorem lookupEntry_filter_self (t : Table) (uid : UID) :
    lookupEntry (t.filter (fun kv => kv.1 != uid)) uid = none := by
  induction t with
  | nil => rfl
  | cons kv rest ih =>
    by_cases h : kv.1 = uid
    · rw [List.filter_cons_of_neg]
      · exact ih
      · simp [h]
    · rw [List.filter_cons_of_pos]
      · unfold lookupEntry
        rw [List.find?_cons_of_neg]
        · exact ih
        · simp [h]
      · simp [h]

theorem filter_ne_of_lookup_none (t : Table) (uid : UID)
    (h : lookupEntry t uid = none) : t.filter (fun kv => kv.1 != uid) = t := by
  induction t with
  | nil => rfl
  | cons kv rest ih =>
    have hk : ¬ kv.1 = uid := by
      intro he
      unfold lookupEntry at h
      rw [List.find?_cons_of_pos] at h
      · simp at h
      · simpa using he
    have h2 : lookupEntry rest uid = none := by
      unfold lookupEntry at h ⊢
      rw [List.find?_cons_of_neg] at h
      · exact h
      · simpa using hk
    rw [List.filter_cons_of_pos, ih h2]
    simpa using hk

/-- C1: take on the Request Table is idempotent.  For an id present in the
table, the first pop returns the stored entry; the table left behind has no
binding for that id, so the second pop (and, the table being then unchanged,
every subsequent one) returns absent and is a no-op. -/
theorem take_idempotent (t : Table) (uid : UID) (e : Entry)
    (h : lookupEntry t uid = some e) :
    (tablePop t uid).1 = some e ∧
    (tablePop (tablePop t uid).2 uid).1 = none ∧
    (tablePop (tablePop t uid).2 uid).2 = (tablePop t uid).2 := by
  refine ⟨h, ?_, ?_⟩
  · exact lookupEntry_filter_self t uid
  · exact filter_ne_of_lookup_none _ uid (lookupEntry_filter_self t uid)

/-- Gateway-side server state: the pipe pool together with a counter for
freshly constructed pipe pairs, the Request Table and the Request Queue. -/
structure ServerState where
  pipePool : List PipeId
  nextPipe : Nat
  requestBuffer : Table
  requestQueue : List UID

/-- Embedding of LitServer.max_pool_size (server.py line 144). -/
def maxPoolSize : Nat := 1000

/-- Embedding of LitServer.new_pipe (server.py lines 168-173): pop the last
pooled pair, or construct a fresh pair when the pool is empty. -/
def new_pipe (st : ServerState) : PipeId × ServerState :=
  match st.pipePool.getLast? with
  | some p => (p, { st with pipePool := st.pipePool.dropLast })
  | none => (st.nextPipe, { st with nextPipe := st.nextPipe + 1 })

/-- Embedding of LitServer.dispose_pipe (server.py lines 175-178): when the
pool length exceeds max_pool_size the method returns early and the pair is
dropped; otherwise it reaches pipe_pool.append(pipe_s, pipe_r), a
two-argument call to list.append, which raises TypeError. -/
def dispose_pipe (pool : List PipeId) (p : PipeId) : Except PyErr (List PipeId) :=
  if pool.length > maxPoolSize then .ok pool
  else .error (.typeError "append takes exactly one argument, 2 given")

/-- The guard logic of dispose_pipe in isolation, with the two-argument append
read charitably as appending the pair: the pair is retained whenever the pool
length is at most max_pool_size. -/
def dispose_pipe_guard (pool : List PipeId) (p : PipeId) : List PipeId :=
  if pool.length > maxPoolSize then pool else pool ++ [p]

/-- Whether a reply channel delivered a value within the timeout, and the
504 sentinel produced otherwise. -/
inductive PipeResult where
  | data (v : Val)
  | httpException (status : Nat) (detail : String)

/-- Embedding of get_from_pipe (server.py lines 128-131): the oracle input
stands for poll(timeout) observing a value within the timeout. -/
def get_from_pipe (arrived : Option Val) : PipeResult :=
  match arrived with
  | some v => .data v
  | none => .httpException 504 "Request timed out"

/-- Result of the /predict handler as seen by the caller. -/
inductive Outcome where
  | ok (v : Val)
  | err (status : Nat) (detail : String)

/-- Dispatch phase of the /predict handler (server.py lines 193-205): acquire
a channel pair, store the envelope in the Request Table, enqueue the uid. -/
def predict_dispatch (st : ServerState) (uid : UID) (payload : Val) :
    PipeId × ServerState :=
  let (pipe, st1) := new_pipe st
  (pipe,
    { st1 with
        requestBuffer := tableInsert st1.requestBuffer uid (.val payload, pipe),
        requestQueue := st1.requestQueue ++ [uid] })

/-- Oracle for the race with a worker replica: when workerTook is true, a
worker dequeued the uid and popped its table entry while the handler was
awaiting the reply. -/
def worker_consume (st : ServerState) (uid : UID) (workerTook : Bool) :
    ServerState :=
  if workerTook then
    { st with
        requestBuffer := (tablePop st.requestBuffer uid).2,
        requestQueue := st.requestQueue.erase uid }
  else st

/-- Embedding of the /predict handler (server.py lines 191-212): dispatch,
optional worker consumption, await the reply with timeout (raising the 504
sentinel when it is an HTTPException), then the deferred cleanup scheduled
as a background task. -/
def predict_handler (st : ServerState) (uid : UID) (payload : Val)
    (workerTook : Bool) (reply : Option Val) : Outcome × ServerState :=
  let st1 := (predict_dispatch st uid payload).2
  let st2 := worker_consume st1 uid workerTook
  let out : Outcome :=
    match get_from_pipe reply with
    | .data v => .ok v
    | .httpException s d => .err s d
  (out, { st2 with requestBuffer := cleanup st2.requestBuffer uid })

/-- Witness for C1 at a concrete one-entry table. -/
theorem take_idempotent_witness :
    lookupEntry [(5, (Payload.val (Val.num 4), 7))] 5
        = some (Payload.val (Val.num 4), 7) ∧
    ((tablePop [(5, (Payload.val (Val.num 4), 7))] 5).1
        = some (Payload.val (Val.num 4), 7) ∧
      (tablePop (tablePop [(5, (Payload.val (Val.num 4), 7))] 5).2 5).1 = none ∧
      (tablePop (tablePop [(5, (Payload.val (Val.num 4), 7))] 5).2 5).2
        = (tablePop [(5, (Payload.val (Val.num 4), 7))] 5).2) :=
  ⟨rfl, take_idempotent _ 5 _ rfl⟩

theorem lookupEntry_cleanup (t : Table) (uid : UID) :
    lookupEntry (cleanup t uid) uid = none :=
  lookupEntry_filter_self t uid

theorem cleanup_noop_of_absent (t : Table) (uid : UID)
    (h : lookupEntry t uid = none) : cleanup t uid = t :=
  filter_ne_of_lookup_none t uid h

theorem lookupEntry_tableInsert (t : Table) (uid : UID) (e : Entry) :
    lookupEntry (tableInsert t uid e) uid = some e := by
  unfold lookupEntry tableInsert
  rw [List.find?_cons_of_pos] <;> simp

/-- C2: a /predict request whose reply does not arrive within the timeout
produces the 504 sentinel with detail Request timed out; the uid is absent
from the final Request Table; the deferred cleanup is a no-op when a worker
already consumed the entry, and otherwise finds the stored envelope still
present and removes it (so the entry is removed exactly once). -/
theorem predict_timeout_504 (st : ServerState) (uid : UID) (payload : Val)
    (workerTook : Bool) :
    (predict_handler st uid payload workerTook none).1
        = .err 504 "Request timed out" ∧
    lookupEntry (predict_handler st uid payload workerTook none).2.requestBuffer
        uid = none ∧
    (workerTook = true →
      cleanup (worker_consume (predict_dispatch st uid payload).2 uid
          workerTook).requestBuffer uid
        = (worker_consume (predict_dispatch st uid payload).2 uid
            workerTook).requestBuffer) ∧
    (workerTook = false →
      lookupEntry (worker_consume (predict_dispatch st uid payload).2 uid
          workerTook).requestBuffer uid
        = some (.val payload, (predict_dispatch st uid payload).1)) := by
  refine ⟨rfl, lookupEntry_cleanup _ uid, ?_, ?_⟩
  · intro h
    subst h
    exact cleanup_noop_of_absent _ uid (lookupEntry_filter_self _ uid)
  · intro h
    subst h
    rcases hnp : new_pipe st with ⟨pipe, st1⟩
    simp [predict_dispatch, worker_consume, hnp, lookupEntry_tableInsert]

/-- Witness for C2 at a concrete state, discharging the inner workerTook
equation at workerTook = true. -/
theorem predict_timeout_504_witness :
    (predict_handler ⟨[], 0, [], []⟩ 3 (.num 4) true none).1
        = .err 504 "Request timed out" ∧
    cleanup (worker_consume (predict_dispatch ⟨[], 0, [], []⟩ 3 (.num 4)).2 3
        true).requestBuffer 3
      = (worker_consume (predict_dispatch ⟨[], 0, [], []⟩ 3 (.num 4)).2 3
          true).requestBuffer :=
  ⟨(predict_timeout_504 ⟨[], 0, [], []⟩ 3 (.num 4) true).1,
   (predict_timeout_504 ⟨[], 0, [], []⟩ 3 (.num 4) true).2.2.1 rfl⟩

theorem new_pipe_pool (st : ServerState) :
    (new_pipe st).2.pipePool = st.pipePool.dropLast := by
  unfold new_pipe
  split
  · rfl
  · next hl =>
    have : st.pipePool = [] := by
      cases hp : st.pipePool with
      | nil => rfl
      | cons a l => rw [hp] at hl; simp at hl
    simp [this]

theorem predict_dispatch_pool (st : ServerState) (uid : UID) (payload : Val) :
    (predict_dispatch st uid payload).2.pipePool = st.pipePool.dropLast := by
  rcases hnp : new_pipe st with ⟨pipe, st1⟩
  have h1 : st1.pipePool = st.pipePool.dropLast := by
    have h2 := new_pipe_pool st
    rw [hnp] at h2
    exact h2
  simp [predict_dispatch, hnp, h1]

theorem worker_consume_pool (st : ServerState) (uid : UID) (b : Bool) :
    (worker_consume st uid b).pipePool = st.pipePool := by
  cases b <;> rfl

/-- C8 amended: the channel pair acquired on request arrival is never given
back to the pool.  Whatever the outcome and whatever the worker did, after a
/predict request the pool has lost its last element (or stays empty): the
handler completes without any release and dispose_pipe is never invoked on
the request paths. -/
theorem predict_pool_only_shrinks (st : ServerState) (uid : UID) (payload : Val)
    (workerTook : Bool) (reply : Option Val) :
    (predict_handler st uid payload workerTook reply).2.pipePool
      = st.pipePool.dropLast := by
  show (worker_consume (predict_dispatch st uid payload).2 uid
      workerTook).pipePool = st.pipePool.dropLast
  rw [worker_consume_pool, predict_dispatch_pool]

/-- C8 counterexample: with the pool holding the single pair 7 (far below
capacity) a /predict request completes normally, yet the final pool is empty
rather than containing the pair again, refuting the claim that the acquired
pair is given back to the pool after the request completes. -/
theorem predict_pool_not_returned :
    ((predict_handler ⟨[7], 8, [], []⟩ 0 (.num 4) true (some (.num 16))).2).pipePool
        = [] ∧
    ((predict_handler ⟨[7], 8, [], []⟩ 0 (.num 4) true (some (.num 16))).2).pipePool
        ≠ (ServerState.mk [7] 8 [] []).pipePool := by
  refine ⟨rfl, ?_⟩
  intro h
  rw [show ((predict_handler ⟨[7], 8, [], []⟩ 0 (.num 4) true
      (some (.num 16))).2).pipePool = [] from rfl] at h
  simp at h

/-- C7: the dispose_pipe code contradicts its own test suite.  With the pool
at exactly max_pool_size pairs the test expects the pair to be dropped and
the pool to stay at max_pool_size; the code instead reaches the two-argument
list.append call, which raises TypeError, and even under a charitable
single-argument reading of the append its guard retains the pair, growing
the pool to max_pool_size + 1. -/
theorem dispose_pipe_capacity_bug :
    dispose_pipe (List.range maxPoolSize) 0
      = .error (.typeError "append takes exactly one argument, 2 given") ∧
    (dispose_pipe_guard (List.range maxPoolSize) 0).length = maxPoolSize + 1 ∧
    maxPoolSize + 1 > maxPoolSize := by
  refine ⟨?_, ?_, by omega⟩
  · simp [dispose_pipe]
  · simp [dispose_pipe_guard]

/-- The user-supplied stages invoked by the single-request loop.  A stage
may raise; the loop does not catch stage exceptions. -/
structure LitAPI where
  decode_request : Payload → Except PyErr Val
  predict : Val → Except PyErr Val
  encode_response : Val → Except PyErr Val

/-- The model installed by SimpleLitAPI.setup in
examples/simple_example.py: squaring.  The Python pow operator raises
TypeError on a non-numeric operand. -/
def squareModel : Val → Except PyErr Val
  | .num x => .ok (.num (x ^ 2))
  | _ => .error (.typeError "unsupported operand type for pow")

/-- Embedding of SimpleLitAPI (examples/simple_example.py lines 5-20):
decode subscripts the input key of the payload, predict squares, encode
wraps the output in an object under the output key. -/
def SimpleLitAPI : LitAPI where
  decode_request
    | .val r => r.subscript "input"
    | .chatRequest _ =>
        .error (.typeError "ChatCompletionRequest is not subscriptable")
  predict := squareModel
  encode_response := fun out => .ok (.obj [("output", out)])

/-- Observable result of one iteration of the single-request loop body. -/
inductive CycleResult where
  | idle
  | stale (uid : UID)
  | sent (p : PipeId) (v : Val)
  | crashed (e : PyErr)

/-- One iteration of single_loop (server.py lines 24-40): dequeue one uid
(idle when the queue read times out), pop its table entry (silently retry on
KeyError), run decode, predict, encode, and send the encoded value on the
reply sender of that request (a broken-channel send is swallowed, which the
sent outcome absorbs).  Returns the outcome, the remaining queue and the
updated table. -/
def single_loop_cycle (api : LitAPI) (queue : List UID) (buffer : Table) :
    CycleResult × List UID × Table :=
  match queue with
  | [] => (.idle, [], buffer)
  | uid :: rest =>
    match tablePop buffer uid with
    | (none, buf) => (.stale uid, rest, buf)
    | (some (xEnc, pipeS), buf) =>
      match api.decode_request xEnc with
      | .error e => (.crashed e, rest, buf)
      | .ok x =>
        match api.predict x with
        | .error e => (.crashed e, rest, buf)
        | .ok y =>
          match api.encode_response y with
          | .error e => (.crashed e, rest, buf)
          | .ok yEnc => (.sent pipeS yEnc, rest, buf)

/-- C3: with the queued request whose table entry holds the payload object
mapping input to 4, the single loop decodes 4, predicts 16, encodes the
object mapping output to 16, and sends exactly that encoded value on the
reply sender of the request. -/
theorem single_loop_square (uid : UID) (pipe : PipeId) :
    SimpleLitAPI.decode_request (.val (.obj [("input", .num 4)]))
        = .ok (.num 4) ∧
    SimpleLitAPI.predict (.num 4) = .ok (.num 16) ∧
    SimpleLitAPI.encode_response (.num 16) = .ok (.obj [("output", .num 16)]) ∧
    single_loop_cycle SimpleLitAPI [uid]
        [(uid, (.val (.obj [("input", .num 4)]), pipe))]
      = (.sent pipe (.obj [("output", .num 16)]), [], []) := by
  have hsq : squareModel (.num 4) = .ok (.num 16) := by
    show Except.ok (Val.num ((4 : ℚ) ^ 2)) = Except.ok (Val.num 16)
    norm_num
  refine ⟨rfl, hsq, rfl, ?_⟩
  simp [single_loop_cycle, tablePop, lookupEntry, SimpleLitAPI, Val.subscript,
    hsq]

/-- The user stages invoked by the batched loop. -/
structure BatchedLitAPI where
  decode_request : Payload → Except PyErr Val
  batch : List Val → Except PyErr Val
  predict : Val → Except PyErr Val
  unbatch : Val → Except PyErr (List Val)
  encode_response : Val → Except PyErr Val

/-- Modelled from the spec: the default batch stage of the LitAPI base class
(the base class is not under src/); per the spec it may be the identity,
passing the collected inputs through as one sequence. -/
def default_batch (inputs : List Val) : Except PyErr Val :=
  .ok (.vlist inputs)

/-- Modelled from the spec: the default unbatch stage of the LitAPI base
class (not under src/) splits the batched result back into one output per
original input, in the same order. -/
def default_unbatch : Val → Except PyErr (List Val)
  | .vlist l => .ok l
  | _ => .error (.typeError "cannot unbatch a non-sequence")

/-- Elementwise squaring over a sequence: the numpy semantics of the square
model when SimpleBatchedAPI predicts over a batch. -/
def batchedSquareModel : Val → Except PyErr Val
  | .vlist l => (l.mapM squareModel).map .vlist
  | v => squareModel v

/-- The square API as run by the batched loop: per-request decode as in
SimpleBatchedAPI, spec-modelled default batch and unbatch stages, and the
elementwise square model. -/
def SimpleBatchedAPI : BatchedLitAPI where
  decode_request
    | .val r => r.subscript "input"
    | .chatRequest _ =>
        .error (.typeError "ChatCompletionRequest is not subscriptable")
  batch := default_batch
  predict := batchedSquareModel
  unbatch := default_unbatch
  encode_response := fun out => .ok (.obj [("output", out)])

/-- The collection phase of batched_loop (server.py lines 45-60): at most
max_batch_size iterations; each dequeues one uid (stop collecting when the
queue read times out, i.e. the queue is empty), pops its entry (KeyError
skips the uid but consumes the iteration), decodes, and appends the decoded
input and the sender preserving collection order. -/
def batched_collect (api : BatchedLitAPI) :
    Nat → List UID → Table → List Val → List PipeId →
    Except PyErr (List Val × List PipeId × List UID × Table)
  | 0, queue, buf, inputs, pipes => .ok (inputs, pipes, queue, buf)
  | _ + 1, [], buf, inputs, pipes => .ok (inputs, pipes, [], buf)
  | n + 1, uid :: rest, buf, inputs, pipes =>
    match tablePop buf uid with
    | (none, buf2) => batched_collect api n rest buf2 inputs pipes
    | (some (xEnc, pipeS), buf2) =>
      match api.decode_request xEnc with
      | .error e => .error e
      | .ok x => batched_collect api n rest buf2 (inputs ++ [x]) (pipes ++ [pipeS])

/-- The delivery phase of batched_loop (server.py lines 70-74): zip the
senders with the unbatched outputs, encode each output independently, and
send each encoded result to its own sender, in order. -/
def encode_and_send (api : BatchedLitAPI) :
    List (PipeId × Val) → Except PyErr (List (PipeId × Val))
  | [] => .ok []
  | (p, y) :: rest =>
    match api.encode_response y with
    | .error e => .error e
    | .ok yEnc =>
      match encode_and_send api rest with
      | .error e => .error e
      | .ok tail => .ok ((p, yEnc) :: tail)

/-- Observable result of one iteration of the batched loop body.  On a
crashed outcome the replica terminates; the queue and table returned with it
are those at entry and are not used further. -/
inductive BatchCycleResult where
  | idle
  | sent (sends : List (PipeId × Val))
  | crashed (e : PyErr)

/-- One iteration of batched_loop (server.py lines 43-74): collect up to
max_batch_size requests, restart when nothing was collected, then run the
batch, predict (once, over the whole batch), unbatch, and per-output encode
and send. -/
def batched_loop_cycle (api : BatchedLitAPI) (maxBatchSize : Nat)
    (queue : List UID) (buffer : Table) :
    BatchCycleResult × List UID × Table :=
  match batched_collect api maxBatchSize queue buffer [] [] with
  | .error e => (.crashed e, queue, buffer)
  | .ok (inputs, pipes, queue2, buf2) =>
    if inputs.isEmpty then (.idle, queue2, buf2)
    else
      match api.batch inputs with
      | .error e => (.crashed e, queue2, buf2)
      | .ok x =>
        match api.predict x with
        | .error e => (.crashed e, queue2, buf2)
        | .ok y =>
          match api.unbatch y with
          | .error e => (.crashed e, queue2, buf2)
          | .ok outputs =>
            match encode_and_send api (pipes.zip outputs) with
            | .error e => (.crashed e, queue2, buf2)
            | .ok sends => (.sent sends, queue2, buf2)

/-- C4: with max_batch_size 2 and two queued requests with inputs 4 and 5,
one collection gathers both inputs in order, predict runs once over the
whole batch, the result is unbatched in the same order, and the encoded
replies with outputs 16 and 25 go to the senders of their own originating
requests, preserving collection order. -/
theorem batched_loop_square (u1 u2 : UID) (p1 p2 : PipeId) (h : u1 ≠ u2) :
    batched_collect SimpleBatchedAPI 2 [u1, u2]
        [(u1, (.val (.obj [("input", .num 4)]), p1)),
         (u2, (.val (.obj [("input", .num 5)]), p2))] [] []
      = .ok ([.num 4, .num 5], [p1, p2], [], []) ∧
    SimpleBatchedAPI.batch [.num 4, .num 5] = .ok (.vlist [.num 4, .num 5]) ∧
    SimpleBatchedAPI.predict (.vlist [.num 4, .num 5])
      = .ok (.vlist [.num 16, .num 25]) ∧
    SimpleBatchedAPI.unbatch (.vlist [.num 16, .num 25])
      = .ok [.num 16, .num 25] ∧
    batched_loop_cycle SimpleBatchedAPI 2 [u1, u2]
        [(u1, (.val (.obj [("input", .num 4)]), p1)),
         (u2, (.val (.obj [("input", .num 5)]), p2))]
      = (.sent [(p1, .obj [("output", .num 16)]), (p2, .obj [("output", .num 25)])],
         [], []) := by
  have hsq4 : squareModel (.num 4) = .ok (.num 16) := by
    show Except.ok (Val.num ((4 : ℚ) ^ 2)) = Except.ok (Val.num 16)
    norm_num
  have hsq5 : squareModel (.num 5) = .ok (.num 25) := by
    show Except.ok (Val.num ((5 : ℚ) ^ 2)) = Except.ok (Val.num 25)
    norm_num
  have hcol : batched_collect SimpleBatchedAPI 2 [u1, u2]
      [(u1, (.val (.obj [("input", .num 4)]), p1)),
       (u2, (.val (.obj [("input", .num 5)]), p2))] [] []
      = .ok ([.num 4, .num 5], [p1, p2], [], []) := by
    simp [batched_collect, tablePop, lookupEntry, SimpleBatchedAPI,
      Val.subscript, h, Ne.symm h]
  have hpred : batchedSquareModel (.vlist [.num 4, .num 5])
      = .ok (.vlist [.num 16, .num 25]) := by
    simp only [batchedSquareModel, List.mapM, List.mapM.loop, hsq4, hsq5]
    rfl
  refine ⟨hcol, rfl, hpred, rfl, ?_⟩
  unfold batched_loop_cycle
  rw [hcol]
  simp [SimpleBatchedAPI, default_batch, default_unbatch, hpred,
    encode_and_send]

/-- Witness for C4 at concrete distinct uids and senders. -/
theorem batched_loop_square_witness :
    (1 : UID) ≠ 2 ∧
    batched_loop_cycle SimpleBatchedAPI 2 [1, 2]
        [(1, (.val (.obj [("input", .num 4)]), 11)),
         (2, (.val (.obj [("input", .num 5)]), 12))]
      = (.sent [(11, .obj [("output", .num 16)]), (12, .obj [("output", .num 25)])],
         [], []) :=
  ⟨by decide, (batched_loop_square 1 2 11 12 (by decide)).2.2.2.2⟩

/-- Modelled from the spec: the UsageInfo schema of litserve.schemas.openai
is not under src/; per the spec it is a record of prompt, completion and
total unit counters, each defaulting to zero. -/
structure UsageInfo where
  prompt : ℚ := 0
  completion : ℚ := 0
  total : ℚ := 0

/-- Reading one counter during parse_obj: missing keys default to zero,
non-numeric values are rejected. -/
def usageField (fields : List (String × Val)) (key : String) :
    Except PyErr ℚ :=
  match (fields.find? (fun kv => kv.1 == key)).map Prod.snd with
  | none => .ok 0
  | some (.num q) => .ok q
  | some _ => .error (.validationError key)

/-- Modelled from the spec: pydantic parse_obj on the reported usage value,
reading each counter field when present, defaulting to zero, and rejecting
a non-object argument. -/
def UsageInfo.parse_obj : Val → Except PyErr UsageInfo
  | .obj fields =>
    match usageField fields "prompt" with
    | .error e => .error e
    | .ok p =>
      match usageField fields "completion" with
      | .error e => .error e
      | .ok c =>
        match usageField fields "total" with
        | .error e => .error e
        | .ok t => .ok { prompt := p, completion := c, total := t }
  | _ => .error (.validationError "usage is not an object")

/-- Field-by-field addition of usage counters, the setattr loop of server.py
lines 268-269. -/
def UsageInfo.add (a b : UsageInfo) : UsageInfo :=
  { prompt := a.prompt + b.prompt,
    completion := a.completion + b.completion,
    total := a.total + b.total }

/-- Modelled from the spec: the ChatMessage schema, a role and a content. -/
structure ChatMessage where
  role : String
  content : Val

/-- Modelled from the spec: the ChatCompletionResponseChoice schema, an
index, a message and a finish reason. -/
structure Choice where
  index : Nat
  message : ChatMessage
  finish_reason : Val

/-- One iteration of the aggregation loop of the chat handler (server.py
lines 256-269): build the choice for index i from the text subscript and
the finish_reason lookup of the sub-response, append it, then add the
usage of the sub-response (parse_obj of its usage field when present, a
fresh zero UsageInfo otherwise) field-by-field onto the accumulator.
Subscripting the 504 sentinel, an HTTPException value, raises TypeError. -/
def chat_aggregate_step (acc : List Choice × UsageInfo) (i : Nat)
    (r : PipeResult) : Except PyErr (List Choice × UsageInfo) :=
  match r with
  | .httpException _ _ =>
      .error (.typeError "HTTPException is not subscriptable")
  | .data v =>
    match v with
    | .obj fields =>
      match (fields.find? (fun kv => kv.1 == "text")).map Prod.snd with
      | none => .error (.keyError "text")
      | some text =>
        let choice : Choice :=
          { index := i,
            message := { role := "assistant", content := text },
            finish_reason :=
              ((fields.find? (fun kv => kv.1 == "finish_reason")).map
                Prod.snd).getD (.str "stop") }
        match (fields.find? (fun kv => kv.1 == "usage")).map Prod.snd with
        | none => .ok (acc.1 ++ [choice], acc.2.add {})
        | some u =>
          match UsageInfo.parse_obj u with
          | .error e => .error e
          | .ok t => .ok (acc.1 ++ [choice], acc.2.add t)
    | _ => .error (.typeError "value is not subscriptable")

/-- The enumerated aggregation loop over the collected responses, carrying
the mutable choices list and usage accumulator. -/
def chat_aggregate_go (i : Nat) (responses : List PipeResult)
    (choices : List Choice) (usage : UsageInfo) :
    Except PyErr (List Choice × UsageInfo) :=
  match responses with
  | [] => .ok (choices, usage)
  | r :: rest =>
    match chat_aggregate_step (choices, usage) i r with
    | .error e => .error e
    | .ok acc => chat_aggregate_go (i + 1) rest acc.1 acc.2

/-- Aggregation of all collected sub-responses (server.py lines 253-269),
starting from an empty choices list and a zero usage accumulator. -/
def chat_aggregate (responses : List PipeResult) :
    Except PyErr (List Choice × UsageInfo) :=
  chat_aggregate_go 0 responses [] {}

/-- Executable well-formedness of a sub-response value: an object carrying
a text field, whose usage field, when present, parses as a UsageInfo. -/
def goodSub (v : Val) : Bool :=
  match v with
  | .obj fields =>
    ((fields.find? (fun kv => kv.1 == "text")).map Prod.snd).isSome &&
    (match (fields.find? (fun kv => kv.1 == "usage")).map Prod.snd with
     | none => true
     | some u =>
       match UsageInfo.parse_obj u with
       | .ok _ => true
       | .error _ => false)
  | _ => false

/-- The choice prescribed for the sub-response at index i: index i, role
assistant, content from the text field, finish reason defaulting to stop. -/
def sub_choice (i : Nat) (v : Val) : Choice :=
  { index := i,
    message := { role := "assistant",
                 content := (v.getKey "text").getD (.str "") },
    finish_reason := (v.getKey "finish_reason").getD (.str "stop") }

/-- The usage contribution of one sub-response: its parsed usage field, or
zero when the field is absent. -/
def sub_usage (v : Val) : UsageInfo :=
  match v.getKey "usage" with
  | none => {}
  | some u =>
    match UsageInfo.parse_obj u with
    | .ok t => t
    | .error _ => {}

/-- The up-front parameter validation of the chat handler (server.py lines
217-233), in source order; some status detail means the corresponding
HTTPException is raised. -/
def chat_param_check (req : ChatCompletionRequest) : Option (Nat × String) :=
  if req.stream then some (400, "Streaming not currently supported")
  else if req.stop.isSome then
    some (400, "Parameter stop not currently supported")
  else if req.frequency_penalty ≠ 0 then
    some (400, "Parameter frequency_penalty not currently supported")
  else if req.presence_penalty ≠ 0 then
    some (400, "Parameter presence_penalty not currently supported")
  else if req.max_tokens.isSome then
    some (400, "Parameter max_tokens not currently supported")
  else if req.top_p ≠ 1 then
    some (400, "Parameter top_p not currently supported")
  else none

/-- The fan-out dispatch loop of the chat handler (server.py lines 235-246):
for each minted uid acquire a channel pair, store the envelope, enqueue the
uid, schedule its deferred cleanup, and retain the receiver. -/
def chat_dispatch (st : ServerState) (uids : List UID) (payload : Payload) :
    List PipeId × ServerState :=
  match uids with
  | [] => ([], st)
  | uid :: rest =>
    let (pipe, st1) := new_pipe st
    let st2 :=
      { st1 with
          requestBuffer := tableInsert st1.requestBuffer uid (payload, pipe),
          requestQueue := st1.requestQueue ++ [uid] }
    let (pipes, st3) := chat_dispatch st2 rest payload
    (pipe :: pipes, st3)

/-- The python expression request.model or the litserve default; an empty
string is falsy. -/
def model_or_default (m : Option String) : String :=
  match m with
  | some s => if s == "" then "litserve" else s
  | none => "litserve"

/-- Result of the chat completions handler as seen by the caller. -/
inductive ChatOutcome where
  | response (model : String) (choices : List Choice) (usage : UsageInfo)
  | httpError (status : Nat) (detail : String)
  | pythonError (e : PyErr)

/-- Embedding of the chat completions handler (server.py lines 215-272):
parameter validation (rejecting before any dispatch), fan-out dispatch of
one sub-request per minted uid, collection of every reply through
get_from_pipe with the per-request timeout, the deferred cleanups, and the
aggregation; an exception inside aggregation propagates as a non-HTTP
python error.  The minted uids and the reply arrivals are oracle inputs. -/
def chat_handler (st : ServerState) (req : ChatCompletionRequest)
    (uids : List UID) (replies : List (Option Val)) :
    ChatOutcome × ServerState :=
  match chat_param_check req with
  | some (s, d) => (.httpError s d, st)
  | none =>
    let st1 := (chat_dispatch st uids (.chatRequest req)).2
    let responses := replies.map get_from_pipe
    let st2 :=
      { st1 with
          requestBuffer :=
            uids.foldl (fun b u => cleanup b u) st1.requestBuffer }
    match chat_aggregate responses with
    | .error e => (.pythonError e, st2)
    | .ok (choices, usage) =>
      (.response (model_or_default req.model) choices usage, st2)

/-- A single accelerator index, or a group of indices when one replica must
span several devices. -/
inductive DeviceIdx where
  | idx (n : Nat)
  | group (l : List Nat)
  deriving DecidableEq, Repr

/-- The devices constructor argument: a device count or an explicit list. -/
inductive DevicesArg where
  | count (n : Nat)
  | explicit (l : List DeviceIdx)
  deriving DecidableEq, Repr

/-- A device value as handed to a worker process: a plain identifier, or a
list of identifiers for a replica spanning several indices. -/
inductive PyDevice where
  | str (s : String)
  | strList (l : List String)
  deriving DecidableEq, Repr

/-- Embedding of LitServer.device_identifiers (server.py lines 180-183):
one family:index identifier per index. -/
def device_identifiers (accelerator : String) : DeviceIdx → List String
  | .idx n => [accelerator ++ ":" ++ toString n]
  | .group l => l.map (fun el => accelerator ++ ":" ++ toString el)

/-- The device list computed by the LitServer constructor (server.py lines
158-164): cpu yields the single logical device; cuda and gpu yield one
identifier list per index, the count form ranging over 0..n-1; any other
accelerator leaves the device list unset. -/
def compute_devices (accelerator : String) (devices : DevicesArg) :
    Option (List PyDevice) :=
  if accelerator == "cpu" then some [.str accelerator]
  else if accelerator == "cuda" || accelerator == "gpu" then
    some ((match devices with
      | .count n => (List.range n).map DeviceIdx.idx
      | .explicit l => l).map
        (fun d => PyDevice.strList (device_identifiers accelerator d)))
  else none

/-- The one-element unwrapping in lifespan (server.py lines 116-117); the
python len of a plain string device is its character count and indexing a
one-character string returns the same string, so a str device is left
unchanged. -/
def unwrap_device : PyDevice → PyDevice
  | .strList [d] => .str d
  | .strList l => .strList l
  | .str s => .str s

/-- The worker spawn loop of lifespan (server.py lines 115-123): the device
list repeated workers_per_device times, each repeated entry unwrapped and
spawned as one process, enumerated by worker id. -/
def spawn_workers (devices : List PyDevice) (workersPerDevice : Nat) :
    List (Nat × PyDevice) :=
  ((List.replicate workersPerDevice devices).flatten.map unwrap_device).enum

/-- Which processing loop a replica runs. -/
inductive LoopKind where
  | single
  | batched
  deriving DecidableEq, Repr

/-- Observable events of one worker replica process. -/
inductive WorkerEvent where
  | setup (device : PyDevice)
  | enterLoop (kind : LoopKind)
  deriving DecidableEq, Repr

/-- Embedding of inference_worker (server.py lines 77-83): run the user
setup stage once on the assigned device, then enter the batched loop when
max_batch_size exceeds one, and the single loop otherwise. -/
def inference_worker (device : PyDevice) (maxBatchSize : Nat) :
    List WorkerEvent :=
  [.setup device,
   .enterLoop (if maxBatchSize > 1 then .batched else .single)]

theorem chat_aggregate_step_good (cs : List Choice) (u : UsageInfo) (i : Nat)
    (v : Val) (h : goodSub v = true) :
    chat_aggregate_step (cs, u) i (.data v)
      = .ok (cs ++ [sub_choice i v], u.add (sub_usage v)) := by
  cases v with
  | num q => simp [goodSub] at h
  | str s => simp [goodSub] at h
  | vlist l => simp [goodSub] at h
  | obj fields =>
    simp only [goodSub] at h
    cases htext : (fields.find? (fun kv => kv.1 == "text")).map Prod.snd with
    | none => rw [htext] at h; simp at h
    | some text =>
      rw [htext] at h
      cases husage : (fields.find? (fun kv => kv.1 == "usage")).map Prod.snd with
      | none =>
        simp only [chat_aggregate_step, htext, husage]
        simp [sub_choice, sub_usage, Val.getKey, htext, husage]
      | some uv =>
        rw [husage] at h
        simp only [Option.isSome_some, Bool.true_and] at h
        cases hp : UsageInfo.parse_obj uv with
        | error e => rw [hp] at h; simp at h
        | ok t =>
          simp only [chat_aggregate_step, htext, husage, hp]
          simp [sub_choice, sub_usage, Val.getKey, htext, husage, hp]

theorem chat_aggregate_go_good (vs : List Val) (i : Nat) (cs : List Choice)
    (u : UsageInfo) (h : ∀ v ∈ vs, goodSub v = true) :
    chat_aggregate_go i (vs.map .data) cs u
      = .ok (cs ++ (vs.enumFrom i).map (fun p => sub_choice p.1 p.2),
             (vs.map sub_usage).foldl UsageInfo.add u) := by
  induction vs generalizing i cs u with
  | nil => simp [chat_aggregate_go]
  | cons v rest ih =>
    have hv : goodSub v = true := h v (List.mem_cons_self v rest)
    have hrest : ∀ w ∈ rest, goodSub w = true :=
      fun w hw => h w (List.mem_cons_of_mem v hw)
    simp only [List.map_cons, chat_aggregate_go,
      chat_aggregate_step_good cs u i v hv]
    rw [ih (i + 1) (cs ++ [sub_choice i v]) (u.add (sub_usage v)) hrest]
    simp [List.enumFrom_cons]

/-- C5: aggregation of a fan-out whose sub-responses all arrived: the result
is the per-index choices list paired with the usage sum.  The choices list
has one entry per sub-response; the entry at position i carries index i,
role assistant, the content of the i-th sub-response text field, and the
finish reason of that sub-response defaulting to stop; the usage
accumulator starts from zero and is folded field-by-field over the
per-sub-response usages, a missing usage contributing zero. -/
theorem chat_fanout_aggregation (vs : List Val)
    (h : ∀ v ∈ vs, goodSub v = true) :
    chat_aggregate (vs.map .data)
      = .ok ((vs.enum).map (fun p => sub_choice p.1 p.2),
             (vs.map sub_usage).foldl UsageInfo.add {}) ∧
    ((vs.enum).map (fun p => sub_choice p.1 p.2)).length = vs.length ∧
    (∀ i : Fin vs.length,
      ((vs.enum).map (fun p => sub_choice p.1 p.2)).get
          ⟨i.1, by simp [List.enum_length, i.2]⟩
        = { index := i.1,
            message := { role := "assistant",
                         content := ((vs.get i).getKey "text").getD (.str "") },
            finish_reason :=
              ((vs.get i).getKey "finish_reason").getD (.str "stop") }) := by
  refine ⟨?_, by simp [List.enum_length], ?_⟩
  · have := chat_aggregate_go_good vs 0 [] {} h
    simpa [chat_aggregate, List.enum] using this
  · intro i
    rw [List.get_map]
    rw [show (vs.enum.get ⟨i.1, by simp [List.enum_length, i.2]⟩)
        = (i.1, vs.get i) from by simp [List.getElem_enum]]
    rfl

/-- Witness for C5: the two sub-responses of the spec example, with texts a
and b and usage totals 3 and 2, aggregate to usage total 5. -/
theorem chat_fanout_aggregation_witness :
    (∀ v ∈ [Val.obj [("text", .str "a"), ("usage", .obj [("total", .num 3)])],
            Val.obj [("text", .str "b"), ("usage", .obj [("total", .num 2)])]],
        goodSub v = true) ∧
    chat_aggregate
        ([Val.obj [("text", .str "a"), ("usage", .obj [("total", .num 3)])],
          Val.obj [("text", .str "b"),
            ("usage", .obj [("total", .num 2)])]].map .data)
      = .ok (([Val.obj [("text", .str "a"), ("usage", .obj [("total", .num 3)])],
               Val.obj [("text", .str "b"),
                 ("usage", .obj [("total", .num 2)])]].enum).map
                (fun p => sub_choice p.1 p.2),
             ([Val.obj [("text", .str "a"), ("usage", .obj [("total", .num 3)])],
               Val.obj [("text", .str "b"),
                 ("usage", .obj [("total", .num 2)])]].map sub_usage).foldl
               UsageInfo.add {}) ∧
    (([Val.obj [("text", .str "a"), ("usage", .obj [("total", .num 3)])],
       Val.obj [("text", .str "b"),
         ("usage", .obj [("total", .num 2)])]].map sub_usage).foldl
        UsageInfo.add {}).total = 5 :=
  ⟨by decide,
   (chat_fanout_aggregation _ (by decide)).1,
   by
     rw [show ([Val.obj [("text", .str "a"), ("usage", .obj [("total", .num 3)])],
           Val.obj [("text", .str "b"),
             ("usage", .obj [("total", .num 2)])]].map sub_usage)
         = [{ prompt := 0, completion := 0, total := 3 },
            { prompt := 0, completion := 0, total := 2 }] from rfl]
     norm_num [List.foldl, UsageInfo.add]⟩

/-- C6: a chat request using any unsupported parameter is rejected with a
400 client error and the server state is fully unchanged: no uid is
enqueued, no table entry is inserted, and no channel pair is acquired. -/
theorem chat_unsupported_param_rejected (st : ServerState)
    (req : ChatCompletionRequest) (uids : List UID)
    (replies : List (Option Val))
    (h : req.stream = true ∨ req.stop.isSome = true ∨
         req.frequency_penalty ≠ 0 ∨ req.presence_penalty ≠ 0 ∨
         req.max_tokens.isSome = true ∨ req.top_p ≠ 1) :
    (∃ d, (chat_handler st req uids replies).1 = .httpError 400 d) ∧
    (chat_handler st req uids replies).2 = st := by
  have hc : ∃ d, chat_param_check req = some (400, d) := by
    unfold chat_param_check
    split_ifs with h1 h2 h3 h4 h5 h6
    · exact ⟨_, rfl⟩
    · exact ⟨_, rfl⟩
    · exact ⟨_, rfl⟩
    · exact ⟨_, rfl⟩
    · exact ⟨_, rfl⟩
    · exact ⟨_, rfl⟩
    · rcases h with h | h | h | h | h | h <;> simp_all
  obtain ⟨d, hd⟩ := hc
  refine ⟨⟨d, ?_⟩, ?_⟩
  · unfold chat_handler
    rw [hd]
  · unfold chat_handler
    rw [hd]

/-- Witness for C6: the spec example, a request with top_p 0.9. -/
theorem chat_unsupported_param_witness :
    (({ top_p := 9/10 } : ChatCompletionRequest).top_p ≠ 1) ∧
    ((∃ d, (chat_handler ⟨[], 0, [], []⟩ { top_p := 9/10 } [] []).1
        = .httpError 400 d) ∧
      (chat_handler ⟨[], 0, [], []⟩ { top_p := 9/10 } [] []).2
        = ⟨[], 0, [], []⟩) :=
  ⟨by norm_num,
   chat_unsupported_param_rejected ⟨[], 0, [], []⟩ { top_p := 9/10 } [] []
     (.inr (.inr (.inr (.inr (.inr (by norm_num))))))⟩

/-- C10: on the chat fan-out path a timed-out sub-reply does not surface as
a 504 error.  get_from_pipe returns the HTTPException sentinel, the
collection loop appends it to the responses list unchecked, and the
aggregation step subscripts it like any other sub-response, raising a
TypeError that leaves the handler as a non-HTTP python error; the /predict
path instead detects the sentinel and raises it as a 504. -/
theorem chat_timeout_sentinel_unchecked (st : ServerState)
    (req : ChatCompletionRequest) (u : UID) (payload : Val)
    (hreq : chat_param_check req = none) :
    ([(none : Option Val)].map get_from_pipe
        = [.httpException 504 "Request timed out"]) ∧
    (chat_handler st req [u] [none]).1
        = .pythonError (.typeError "HTTPException is not subscriptable") ∧
    (∀ s d, (chat_handler st req [u] [none]).1 ≠ .httpError s d) ∧
    (predict_handler st u payload true none).1
        = .err 504 "Request timed out" := by
  have hh : (chat_handler st req [u] [none]).1
      = .pythonError (.typeError "HTTPException is not subscriptable") := by
    unfold chat_handler
    rw [hreq]
    rfl
  refine ⟨rfl, hh, ?_, rfl⟩
  intro s d hcontra
  rw [hh] at hcontra
  exact ChatOutcome.noConfusion hcontra

/-- Witness for C10 with the default chat request, which passes the
parameter validation. -/
theorem chat_timeout_sentinel_witness :
    chat_param_check {} = none ∧
    (chat_handler ⟨[], 0, [], []⟩ {} [4] [none]).1
      = .pythonError (.typeError "HTTPException is not subscriptable") :=
  ⟨by decide,
   (chat_timeout_sentinel_unchecked ⟨[], 0, [], []⟩ {} 4 (.num 0)
     (by decide)).2.1⟩

/-- C9: at startup the device list is the single logical cpu device for the
cpu accelerator, and one family:index identifier per index for cuda and gpu
(whether given as a count or as an index list); the list is replicated by
the workers-per-device factor; exactly one worker process is spawned per
(device, slot) pair, with worker ids enumerating the pairs; and every
replica runs its setup stage exactly once, as its first step before
entering its processing loop. -/
theorem device_replica_assignment (wpd : Nat) :
    (∀ d, compute_devices "cpu" d = some [.str "cpu"]) ∧
    (∀ n, compute_devices "cuda" (.count n)
      = some ((List.range n).map
          (fun i => PyDevice.strList ["cuda:" ++ toString i]))) ∧
    (∀ l : List Nat, compute_devices "gpu" (.explicit (l.map DeviceIdx.idx))
      = some (l.map (fun i => PyDevice.strList ["gpu:" ++ toString i]))) ∧
    (∀ devices : List PyDevice,
      (spawn_workers devices wpd).length = devices.length * wpd) ∧
    (∀ devices : List PyDevice,
      (spawn_workers devices wpd).map Prod.fst
        = List.range (devices.length * wpd)) ∧
    (∀ d b, inference_worker d b
        = [.setup d, .enterLoop (if b > 1 then .batched else .single)] ∧
      (inference_worker d b).count (.setup d) = 1 ∧
      (inference_worker d b).head? = some (.setup d)) := by
  have hlen : ∀ devices : List PyDevice,
      ((List.replicate wpd devices).flatten.map unwrap_device).length
        = devices.length * wpd := by
    intro devices
    rw [List.length_map, List.length_flatten, List.map_replicate,
      List.sum_replicate, smul_eq_mul, Nat.mul_comm]
  refine ⟨fun d => rfl, ?_, ?_, ?_, ?_, ?_⟩
  · intro n
    simp [compute_devices, device_identifiers, List.map_map, Function.comp]
  · intro l
    simp [compute_devices, device_identifiers, List.map_map, Function.comp]
  · intro devices
    unfold spawn_workers
    rw [List.enum_length, hlen devices]
  · intro devices
    unfold spawn_workers
    rw [List.enum_map_fst, hlen devices]
  · intro d b
    refine ⟨rfl, ?_, rfl⟩
    simp [inference_worker, List.count_cons]

end LitServe
